import Mathlib

/-!
Verification of the background-agent process supervisor implemented in
`src/cli/simple-commands/cursor-background-agent.js` (class
`CursorBackgroundAgent`).

The class is embedded shallowly: each method becomes a Lean function on an
explicit `Agent` state record.  Externally determined inputs (the current
clock, the pid the OS would assign, the heap measurement, the outcomes of
the GitHub collaborator calls, the contents of the on-disk memory snapshot)
are collected in an `Env` record that is passed to the operations that read
them.  JavaScript exceptions are modelled with `Except JsError`: a `try`
block is a computation in `Except`, and the surrounding `catch` pattern
matches on the result.

Two behaviours of the source that matter below:

* The constructor (line 29) assigns the boolean own-property
  `this.isRunning = false`.  In JavaScript an own property shadows the
  prototype method of the same name, so the method `isRunning()` defined at
  lines 461-471 is unreachable through `this.isRunning`; the call
  `await this.isRunning()` at line 53 invokes a boolean and throws
  `TypeError: this.isRunning is not a function`.

* `performGitHubSync` (line 400) reads `this.memoryManager`, a property
  that is never assigned anywhere in the class, so the member access
  `this.memoryManager.store` throws a `TypeError` whenever it is reached.

The GitHub collaborator itself (`./github/github-api.js`) is not part of
the repository; following the spec it is a narrow interface
(`authenticate() -> bool`, list items -> result), whose outcomes are fields
of `Env`.
-/

namespace CursorAgent

/-- A value stored in the supervisor memory map: an opaque payload plus the
millisecond timestamp recorded when the entry was written. -/
structure MemEntry where
  timestamp : Int
  payload : String
deriving DecidableEq, Repr

/-- Externally determined inputs of one operation: the clock, the pid a
spawn would receive, the measured heap, the collaborator outcomes and the
bytes of the on-disk snapshot. -/
structure Env where
  now : Int
  freshPid : Nat
  heapUsed : Nat
  githubAuthThrows : Bool
  githubAuth : Bool
  listReposSuccess : Bool
  diskMemory : List (String × MemEntry)
  configPort : Option Nat
deriving DecidableEq, Repr

/-- The mutable instance state of `CursorBackgroundAgent`.

`isRunning` is the boolean own-property assigned in the constructor
(line 29); it shadows the prototype method `isRunning()` (lines 461-471).
`healthCheckInterval`, `memoryCleanupInterval` and `githubSyncInterval`
record whether the corresponding timer is armed (`setInterval` arms it,
`clearInterval` cancels it).  `spawnCalls` counts invocations of
`spawn(...)` (line 251) and `failedEmitted` records that the terminal
`failed` event (line 431) has fired; both are trace instrumentation, they
are written exactly where the corresponding source line executes and read
nowhere. -/
structure Agent where
  port : Nat
  process : Option Nat
  isRunning : Bool
  restartCount : Nat
  startTime : Option Int
  githubAPI : Bool
  githubConnected : Bool
  memoryStore : List (String × MemEntry)
  healthCheckInterval : Bool
  memoryCleanupInterval : Bool
  githubSyncInterval : Bool
  spawnCalls : Nat
  failedEmitted : Bool
deriving DecidableEq, Repr

/-- JavaScript runtime errors observed by the embedded code. -/
inductive JsError where
  | typeError (msg : String)
deriving DecidableEq, Repr

/-- `this.maxRestarts`, set to 5 in the constructor (line 31) and never
reassigned. -/
def maxRestarts : Nat := 5

/-- The eviction age bound of `performMemoryCleanup` (line 370):
24 * 60 * 60 * 1000 milliseconds. -/
def maxAgeMs : Int := 24 * 60 * 60 * 1000

/-- The state produced by the constructor (lines 17-43) for a given port:
no process, flag false, zero restarts, empty memory, no timers armed. -/
def mkAgent (port : Nat) : Agent :=
  { port := port
    process := none
    isRunning := false
    restartCount := 0
    startTime := none
    githubAPI := false
    githubConnected := false
    memoryStore := []
    healthCheckInterval := false
    memoryCleanupInterval := false
    githubSyncInterval := false
    spawnCalls := 0
    failedEmitted := false }

/-- The agent built with default options (port 3001, line 21). -/
def initialAgent : Agent := mkAgent 3001

/-- JavaScript `Map.prototype.set`: overwrite in place when the key is
already present, append otherwise. -/
def mapSet {α : Type} : List (String × α) → String → α → List (String × α)
  | [], k, v => [(k, v)]
  | (k', v') :: rest, k, v =>
      if k' = k then (k, v) :: rest else (k', v') :: mapSet rest k v

/-- The eviction loop of `performMemoryCleanup` (lines 372-376): delete
every entry with `now - entry.timestamp > maxAge`; the survivors are kept
untouched and in order. -/
def evictOlderThan (now maxAge : Int) (store : List (String × MemEntry)) :
    List (String × MemEntry) :=
  store.filter (fun kv => decide (now - kv.2.timestamp ≤ maxAge))

/-- `saveMemory` (lines 503-510): the snapshot written to disk is
`Object.fromEntries(this.memoryStore)`, i.e. the key-entry pairs of the map
in insertion order.  The disk write itself is best-effort. -/
def saveMemory (s : Agent) : List (String × MemEntry) := s.memoryStore

/-- `loadMemory` (lines 487-498): every key of the parsed snapshot is
`set` into the current map; a missing or corrupt file (empty `disk`) leaves
the map as it is. -/
def loadMemoryInto (s : Agent) (disk : List (String × MemEntry)) : Agent :=
  { s with memoryStore := disk.foldl (fun m kv => mapSet m kv.1 kv.2) s.memoryStore }

/-- `stopMonitoring` (lines 319-329): `clearInterval` on each of the three
timers, cancelling whichever are armed. -/
def stopMonitoring (s : Agent) : Agent :=
  { s with healthCheckInterval := false
           memoryCleanupInterval := false
           githubSyncInterval := false }

/-- `startMonitoring` (lines 299-314): arm the three periodic timers. -/
def startMonitoring (s : Agent) : Agent :=
  { s with healthCheckInterval := true
           memoryCleanupInterval := true
           githubSyncInterval := true }

/-- `initializeGitHubIntegration` (lines 151-167): construct the client and
authenticate; when `authenticate()` throws, the `catch` leaves
`githubConnected` as it was. -/
def initGitHubIntegration (env : Env) (s : Agent) : Agent :=
  if env.githubAuthThrows then { s with githubAPI := true }
  else { s with githubAPI := true, githubConnected := env.githubAuth }

/-- `loadConfiguration` (lines 185-200): on a readable config the port is
overridden, otherwise the `catch` keeps the defaults. -/
def loadConfiguration (env : Env) (s : Agent) : Agent :=
  match env.configPort with
  | some p => { s with port := p }
  | none => s

/-- `initializeComponents` (lines 137-146): GitHub integration, then
memory load, then configuration, each best-effort. -/
def initComponents (env : Env) (s : Agent) : Agent :=
  loadConfiguration env (loadMemoryInto (initGitHubIntegration env s) env.diskMemory)

/-- `startMainProcess` (lines 205-294): `spawn('node', ...)` stores the
child handle, and after the one-second settle delay the flag and the start
timestamp are set and the pid file written. -/
def startMainProcess (env : Env) (s : Agent) : Agent :=
  { s with process := some env.freshPid
           spawnCalls := s.spawnCalls + 1
           isRunning := true
           startTime := some env.now }

/-- The call `this.isRunning()` at line 53.  `this.isRunning` resolves to
the boolean own-property set at line 29, which shadows the prototype method
`isRunning()` of lines 461-471; calling a boolean throws. -/
def callIsRunningProperty (_receiver : Bool) : Except JsError Bool :=
  Except.error (JsError.typeError "this.isRunning is not a function")

/-- The `try` block of `start()` (lines 49-69), translated in source
order: the `this.isRunning()` call (which throws, see
`callIsRunningProperty`; a thrown error propagates out of the block), then
the already-running early return, component setup, process spawn,
monitoring, and `return true`. -/
def startBody (env : Env) (s : Agent) : Except JsError (Agent × Bool) :=
  match callIsRunningProperty s.isRunning with
  | Except.error e => Except.error e
  | Except.ok alreadyRunning =>
      if alreadyRunning then Except.ok (s, true)
      else
        let s1 := initComponents env s
        let s2 := startMainProcess env s1
        let s3 := startMonitoring s2
        Except.ok (s3, true)

/-- `start()` (lines 48-75): run the body; the `catch` (lines 70-74)
logs, emits `error` (whose handler only logs) and returns `false`. -/
def start (env : Env) (s : Agent) : Agent × Bool :=
  match startBody env s with
  | Except.ok r => r
  | Except.error _ => (s, false)

/-- `stop()` (lines 80-105): signal and wait out the child when a handle
exists (the handle itself is kept), remove the pid file best-effort, clear
the flag, then `emit('stopped')`, whose handler (lines 533-536) runs
synchronously and calls `stopMonitoring`; finally `return true`.  No step
in the body can throw, so the `catch` path returning `false` is dead. -/
def stop (s : Agent) : Agent × Bool :=
  (stopMonitoring { s with isRunning := false }, true)

/-- `restart()` (lines 110-115): `stop()`, a one-second delay, then
`start()`, whose result is returned. -/
def restart (env : Env) (s : Agent) : Agent × Bool :=
  start env (stop s).1

/-- The `uptime` field of `getStatus` (line 126):
`this.startTime ? Date.now() - this.startTime : 0`; an unset (or zero,
by JavaScript truthiness) start time yields 0. -/
def uptimeOf (env : Env) (s : Agent) : Int :=
  match s.startTime with
  | none => 0
  | some t => if t = 0 then 0 else env.now - t

/-- The snapshot object returned by `getStatus` (lines 120-132). -/
structure Status where
  isRunning : Bool
  pid : Option Nat
  port : Nat
  restartCount : Nat
  uptime : Int
  githubConnected : Bool
  memoryEntries : Nat
deriving DecidableEq, Repr

/-- `getStatus()` (lines 120-132): a read-only snapshot of the fields. -/
def getStatus (env : Env) (s : Agent) : Status :=
  { isRunning := s.isRunning
    pid := s.process
    port := s.port
    restartCount := s.restartCount
    uptime := uptimeOf env s
    githubConnected := s.githubConnected
    memoryEntries := s.memoryStore.length }

/-- `performMemoryCleanup` (lines 366-385): evict entries older than 24h,
then `saveMemory` (a best-effort disk write of the surviving snapshot). -/
def performMemoryCleanup (env : Env) (s : Agent) : Agent :=
  { s with memoryStore := evictOlderThan env.now maxAgeMs s.memoryStore }

/-- The member access `this.memoryManager.store` at line 400.
`memoryManager` is never assigned anywhere in the class, so the property
is `undefined` and the access throws. -/
def memoryManagerStore (_s : Agent) : Except JsError Agent :=
  Except.error (JsError.typeError "Cannot read properties of undefined")

/-- The `try` block of `performGitHubSync` (lines 391-414): return early
unless the client exists and reports a connected session; list a page of
repositories; on success, store the result through `this.memoryManager`
(which throws, see `memoryManagerStore`; the thrown error propagates out
of the block). -/
def performGitHubSyncBody (env : Env) (s : Agent) : Except JsError Agent :=
  if !s.githubAPI || !s.githubConnected then Except.ok s
  else if env.listReposSuccess then
    match memoryManagerStore s with
    | Except.error e => Except.error e
    | Except.ok s1 => Except.ok s1
  else Except.ok s

/-- `performGitHubSync` (lines 390-418): run the body; the `catch`
(lines 415-417) logs the failure and returns, leaving the state as it
was. -/
def performGitHubSync (env : Env) (s : Agent) : Agent :=
  match performGitHubSyncBody env s with
  | Except.ok r => r
  | Except.error _ => s

/-- `handleProcessFailure` (lines 423-433): increment the restart counter;
within the ceiling, `restart()`; beyond it, `emit('failed')`, whose handler
(lines 542-545) logs and calls `stopMonitoring`. -/
def handleProcessFailure (env : Env) (s : Agent) : Agent :=
  let s1 := { s with restartCount := s.restartCount + 1 }
  if s1.restartCount ≤ maxRestarts then (restart env s1).1
  else stopMonitoring { s1 with failedEmitted := true }

/-- `performHealthCheck` (lines 334-361): when the flag is down or no
handle exists, invoke the failure policy; otherwise run the memory-pressure
early cleanup and the GitHub reconnect branches.  Nothing in the body
throws. -/
def performHealthCheck (env : Env) (s : Agent) : Agent :=
  if !s.isRunning || s.process.isNone then handleProcessFailure env s
  else
    let s1 := if env.heapUsed > 100 * 1024 * 1024 then performMemoryCleanup env s else s
    if s1.githubAPI && !s1.githubConnected then initGitHubIntegration env s1 else s1

/-- The `exit` observer registered in `startMainProcess` (lines 261-265):
clears the flag and emits `exited` (no handler is registered for it). -/
def onProcessExit (s : Agent) : Agent :=
  { s with isRunning := false }

/-- `cleanup` (lines 551-555): `stopMonitoring`, `saveMemory` (disk
write), then `stop()`. -/
def cleanup (s : Agent) : Agent × Bool :=
  stop (stopMonitoring s)

/-- Every operation that can touch the agent state: the four host calls,
the three periodic tasks, the failure handler, the signal-driven cleanup
and the asynchronous child-exit notification. -/
inductive HostOp where
  | opStart
  | opStop
  | opRestart
  | opGetStatus
  | opHealthCheck
  | opMemoryCleanup
  | opGitHubSync
  | opProcessFailure
  | opCleanup
  | opProcessExit
deriving DecidableEq, Repr

/-- One step of the supervisor: apply an operation under an environment. -/
def step (env : Env) (s : Agent) : HostOp → Agent
  | HostOp.opStart => (start env s).1
  | HostOp.opStop => (stop s).1
  | HostOp.opRestart => (restart env s).1
  | HostOp.opGetStatus => s
  | HostOp.opHealthCheck => performHealthCheck env s
  | HostOp.opMemoryCleanup => performMemoryCleanup env s
  | HostOp.opGitHubSync => performGitHubSync env s
  | HostOp.opProcessFailure => handleProcessFailure env s
  | HostOp.opCleanup => (cleanup s).1
  | HostOp.opProcessExit => onProcessExit s

/-- A whole lifetime: a sequence of operations, each with the environment
it observed. -/
def run (s : Agent) (trace : List (HostOp × Env)) : Agent :=
  trace.foldl (fun a p => step p.2 a p.1) s

/-- A sample environment for concrete evaluations. -/
def sampleEnv : Env :=
  { now := 1000000
    freshPid := 4242
    heapUsed := 0
    githubAuthThrows := false
    githubAuth := true
    listReposSuccess := true
    diskMemory := []
    configPort := none }

/-- An agent whose GitHub client exists and reports a connected session. -/
def connectedAgent : Agent :=
  { initialAgent with githubAPI := true, githubConnected := true }

/-- An agent holding two memory entries with distinct keys. -/
def storeAgentA : Agent :=
  { initialAgent with
      memoryStore := [("alpha", MemEntry.mk 10 "p1"), ("beta", MemEntry.mk 20 "p2")] }

/-- The state after six consecutive health checks, each of which finds the
process down, starting from the freshly constructed agent. -/
def sixDetections : Agent :=
  performHealthCheck sampleEnv (performHealthCheck sampleEnv (performHealthCheck sampleEnv
    (performHealthCheck sampleEnv (performHealthCheck sampleEnv
      (performHealthCheck sampleEnv initialAgent)))))

/-! ## Basic facts about the operations -/

/-- `start()` always takes the `catch` path: the `this.isRunning()` call
throws before anything else runs, so the agent is unchanged and the result
is `false`. -/
theorem start_eq (env : Env) (s : Agent) : start env s = (s, false) := rfl

/-- `stop()` written out: flag cleared, all three timers cancelled, result
`true`; every other field is untouched. -/
theorem stop_eq (s : Agent) :
    stop s = ({ s with isRunning := false
                       healthCheckInterval := false
                       memoryCleanupInterval := false
                       githubSyncInterval := false }, true) := rfl

/-- `restart()` reduces to the state left by `stop()` (its inner `start()`
fails without touching the state) paired with `false`. -/
theorem restart_eq (env : Env) (s : Agent) : restart env s = ((stop s).1, false) := rfl

/-- `performGitHubSync` never changes the agent: the early returns keep the
state, and on the success path the `memoryManager` access throws into the
`catch`, which also keeps the state. -/
theorem performGitHubSync_eq (env : Env) (s : Agent) : performGitHubSync env s = s := by
  unfold performGitHubSync performGitHubSyncBody memoryManagerStore
  rcases hg : (!s.githubAPI || !s.githubConnected) with _ | _ <;>
    rcases hl : env.listReposSuccess with _ | _ <;> simp [hg, hl]

/-- `handleProcessFailure` increments the restart counter by exactly one,
on both the restarting branch and the ceiling branch. -/
theorem handleProcessFailure_restartCount (env : Env) (s : Agent) :
    (handleProcessFailure env s).restartCount = s.restartCount + 1 := by
  unfold handleProcessFailure
  dsimp only
  split <;> rfl

/-- `performHealthCheck` bumps the restart counter exactly when the failure
branch is taken, and preserves it on the healthy branch. -/
theorem performHealthCheck_restartCount (env : Env) (s : Agent) :
    (performHealthCheck env s).restartCount =
      if !s.isRunning || s.process.isNone then s.restartCount + 1
      else s.restartCount := by
  unfold performHealthCheck
  split
  · exact handleProcessFailure_restartCount env s
  · dsimp only
    simp [apply_ite Agent.restartCount, initGitHubIntegration, performMemoryCleanup]

/-- A health check on an agent whose flag is down, while the counter is
still below the ceiling: the failure handler restarts, which stops the
timers, clears the flag and bumps the counter; nothing else changes. -/
theorem detect_below (env : Env) (s : Agent) (h1 : s.isRunning = false)
    (h2 : s.restartCount < maxRestarts) :
    performHealthCheck env s =
      { s with restartCount := s.restartCount + 1
               isRunning := false
               healthCheckInterval := false
               memoryCleanupInterval := false
               githubSyncInterval := false } := by
  unfold performHealthCheck
  rw [if_pos (by simp [h1])]
  unfold handleProcessFailure
  dsimp only
  rw [if_pos (show s.restartCount + 1 ≤ maxRestarts by omega)]
  rfl

/-- A health check on an agent whose flag is down, once the counter has
reached the ceiling: the counter is still bumped, the `failed` event fires
and its handler stops the timers; no restart is attempted. -/
theorem detect_atCeiling (env : Env) (s : Agent) (h1 : s.isRunning = false)
    (h2 : maxRestarts ≤ s.restartCount) :
    performHealthCheck env s =
      { s with restartCount := s.restartCount + 1
               failedEmitted := true
               healthCheckInterval := false
               memoryCleanupInterval := false
               githubSyncInterval := false } := by
  unfold performHealthCheck
  rw [if_pos (by simp [h1])]
  unfold handleProcessFailure
  dsimp only
  rw [if_neg (by omega)]
  rfl

/-- `Map.set` with a key absent from the map appends the pair. -/
theorem mapSet_of_not_mem {α : Type} (acc : List (String × α)) (k : String) (v : α)
    (h : k ∉ acc.map Prod.fst) : mapSet acc k v = acc ++ [(k, v)] := by
  induction acc with
  | nil => rfl
  | cons hd tl ih =>
      obtain ⟨k', v'⟩ := hd
      simp only [List.map_cons, List.mem_cons, not_or] at h
      unfold mapSet
      rw [if_neg (fun he => h.1 he.symm)]
      rw [ih h.2]
      rfl

/-- Folding `Map.set` over pairs whose keys are fresh for the accumulator
and mutually distinct appends them all in order. -/
theorem foldl_mapSet (l : List (String × MemEntry)) (acc : List (String × MemEntry))
    (h : (acc.map Prod.fst ++ l.map Prod.fst).Nodup) :
    l.foldl (fun m kv => mapSet m kv.1 kv.2) acc = acc ++ l := by
  induction l generalizing acc with
  | nil => simp
  | cons hd tl ih =>
      obtain ⟨k, v⟩ := hd
      simp only [List.map_cons] at h
      have hk : k ∉ acc.map Prod.fst := by
        intro hmem
        exact (List.nodup_append.mp h).2.2 hmem (by simp)
      rw [List.foldl_cons]
      dsimp only
      rw [mapSet_of_not_mem acc k v hk]
      rw [ih (acc ++ [(k, v)]) (by simpa [List.append_assoc] using h)]
      simp

/-- No operation of the supervisor decreases the restart counter. -/
theorem step_restartCount_le (env : Env) (op : HostOp) (s : Agent) :
    s.restartCount ≤ (step env s op).restartCount := by
  cases op with
  | opStart => simp [step, start_eq]
  | opStop => simp [step, stop, stopMonitoring]
  | opRestart => simp [step, restart_eq, stop, stopMonitoring]
  | opGetStatus => simp [step]
  | opHealthCheck =>
      rw [show step env s HostOp.opHealthCheck = performHealthCheck env s from rfl,
        performHealthCheck_restartCount]
      split <;> omega
  | opMemoryCleanup => simp [step, performMemoryCleanup]
  | opGitHubSync => simp [step, performGitHubSync_eq]
  | opProcessFailure =>
      rw [show step env s HostOp.opProcessFailure = handleProcessFailure env s from rfl,
        handleProcessFailure_restartCount]
      omega
  | opCleanup => simp [step, cleanup, stop, stopMonitoring]
  | opProcessExit => simp [step, onProcessExit]

/-- Along any trace of operations the restart counter never decreases. -/
theorem run_restartCount_le (s : Agent) (trace : List (HostOp × Env)) :
    s.restartCount ≤ (run s trace).restartCount := by
  induction trace generalizing s with
  | nil => simp [run]
  | cons p tl ih =>
      calc s.restartCount
          ≤ (step p.2 s p.1).restartCount := step_restartCount_le p.2 p.1 s
        _ ≤ (run (step p.2 s p.1) tl).restartCount := ih _
        _ = (run s (p :: tl)).restartCount := rfl

/-! ## The claims -/

/-- C1: the claim says that for a supervisor that is not already running,
`start()` spawns the child, arms the three periodic tasks, sets the running
flag and returns `true`.  In the code this never happens: on every state
and every environment the call `this.isRunning()` at line 53 invokes the
boolean field that shadows the method, throws a `TypeError`, and the
`catch` returns `false` with the state unchanged — no spawn, no timers, no
flag. -/
theorem start_always_fails (env : Env) (s : Agent) :
    start env s = (s, false)
    ∧ startBody env s =
        Except.error (JsError.typeError "this.isRunning is not a function") :=
  ⟨rfl, rfl⟩

/-- C2 counterexample: starting from the freshly constructed agent, six
consecutive failure-detecting health checks leave `restartCount = 6`, not
`restartCount = 5` as the claim states. -/
theorem six_failures_count_is_not_five :
    (getStatus sampleEnv sixDetections).restartCount = 6
    ∧ ¬(getStatus sampleEnv sixDetections).restartCount = 5 := by
  constructor
  · rfl
  · intro h
    simp [sixDetections] at h
    revert h
    decide

/-- C2 (amended): whenever the health check detects process failure six
times in succession from a supervisor with a zero restart counter, the
sixth detection attempts no further spawn (no `spawn` call happens at
all), the terminal `failed` event has fired, all three timers are
cancelled, and `status()` reports `running = false` and
`restartCount = 6` — the counter is incremented on the sixth detection as
well, before the ceiling test, so it ends at 6 rather than 5. -/
theorem six_failures_terminal (e1 e2 e3 e4 e5 e6 : Env) (s : Agent)
    (h1 : s.isRunning = false) (h2 : s.restartCount = 0) :
    (getStatus e6 (performHealthCheck e6 (performHealthCheck e5 (performHealthCheck e4
        (performHealthCheck e3 (performHealthCheck e2
          (performHealthCheck e1 s))))))).isRunning = false
    ∧ (getStatus e6 (performHealthCheck e6 (performHealthCheck e5 (performHealthCheck e4
        (performHealthCheck e3 (performHealthCheck e2
          (performHealthCheck e1 s))))))).restartCount = 6
    ∧ (performHealthCheck e6 (performHealthCheck e5 (performHealthCheck e4
        (performHealthCheck e3 (performHealthCheck e2
          (performHealthCheck e1 s)))))).failedEmitted = true
    ∧ (performHealthCheck e6 (performHealthCheck e5 (performHealthCheck e4
        (performHealthCheck e3 (performHealthCheck e2
          (performHealthCheck e1 s)))))).healthCheckInterval = false
    ∧ (performHealthCheck e6 (performHealthCheck e5 (performHealthCheck e4
        (performHealthCheck e3 (performHealthCheck e2
          (performHealthCheck e1 s)))))).memoryCleanupInterval = false
    ∧ (performHealthCheck e6 (performHealthCheck e5 (performHealthCheck e4
        (performHealthCheck e3 (performHealthCheck e2
          (performHealthCheck e1 s)))))).githubSyncInterval = false
    ∧ (performHealthCheck e6 (performHealthCheck e5 (performHealthCheck e4
        (performHealthCheck e3 (performHealthCheck e2
          (performHealthCheck e1 s)))))).spawnCalls = s.spawnCalls := by
  rw [detect_below e1 s h1 (by simp [h2, maxRestarts])]
  rw [detect_below e2 _ rfl (by simp [h2, maxRestarts])]
  rw [detect_below e3 _ rfl (by simp [h2, maxRestarts])]
  rw [detect_below e4 _ rfl (by simp [h2, maxRestarts])]
  rw [detect_below e5 _ rfl (by simp [h2, maxRestarts])]
  rw [detect_atCeiling e6 _ rfl (by simp [h2, maxRestarts])]
  simp [getStatus, h2]

/-- C2 witness: the amended statement evaluated on the freshly constructed
agent under the sample environment. -/
theorem six_failures_terminal_witness :
    (getStatus sampleEnv (performHealthCheck sampleEnv (performHealthCheck sampleEnv
        (performHealthCheck sampleEnv (performHealthCheck sampleEnv (performHealthCheck sampleEnv
          (performHealthCheck sampleEnv initialAgent))))))).isRunning = false
    ∧ (getStatus sampleEnv (performHealthCheck sampleEnv (performHealthCheck sampleEnv
        (performHealthCheck sampleEnv (performHealthCheck sampleEnv (performHealthCheck sampleEnv
          (performHealthCheck sampleEnv initialAgent))))))).restartCount = 6
    ∧ (performHealthCheck sampleEnv (performHealthCheck sampleEnv
        (performHealthCheck sampleEnv (performHealthCheck sampleEnv (performHealthCheck sampleEnv
          (performHealthCheck sampleEnv initialAgent)))))).failedEmitted = true
    ∧ (performHealthCheck sampleEnv (performHealthCheck sampleEnv
        (performHealthCheck sampleEnv (performHealthCheck sampleEnv (performHealthCheck sampleEnv
          (performHealthCheck sampleEnv initialAgent)))))).healthCheckInterval = false
    ∧ (performHealthCheck sampleEnv (performHealthCheck sampleEnv
        (performHealthCheck sampleEnv (performHealthCheck sampleEnv (performHealthCheck sampleEnv
          (performHealthCheck sampleEnv initialAgent)))))).memoryCleanupInterval = false
    ∧ (performHealthCheck sampleEnv (performHealthCheck sampleEnv
        (performHealthCheck sampleEnv (performHealthCheck sampleEnv (performHealthCheck sampleEnv
          (performHealthCheck sampleEnv initialAgent)))))).githubSyncInterval = false
    ∧ (performHealthCheck sampleEnv (performHealthCheck sampleEnv
        (performHealthCheck sampleEnv (performHealthCheck sampleEnv (performHealthCheck sampleEnv
          (performHealthCheck sampleEnv initialAgent)))))).spawnCalls = initialAgent.spawnCalls :=
  six_failures_terminal sampleEnv sampleEnv sampleEnv sampleEnv sampleEnv sampleEnv
    initialAgent rfl rfl

/-- C3: the claim says that after `start()` with the default configuration,
`status()` reports `running = true` with `restartCount = 0`, and that an
external kill is auto-recovered within one health-check interval.  In the
code the scenario fails at its first step: `start()` on the fresh agent
returns `false` (the `this.isRunning()` call throws), the status reports
`running = false`, and no process was ever spawned, so there is nothing to
recover. -/
theorem default_start_reports_not_running :
    (start sampleEnv initialAgent).2 = false
    ∧ (getStatus sampleEnv (start sampleEnv initialAgent).1).isRunning = false
    ∧ (getStatus sampleEnv (start sampleEnv initialAgent).1).restartCount = 0
    ∧ (start sampleEnv initialAgent).1.spawnCalls = 0 :=
  ⟨rfl, rfl, rfl, rfl⟩

/-- C4: the restart counter is incremented (by exactly one) by the
health-triggered failure handler and by nothing else: explicit
host-requested `restart()` — as well as `start()`, `stop()`, cleanup, the
periodic tasks, the status read and the exit observer — leaves
`restartCount` unchanged; `performHealthCheck` bumps it exactly when it
detects the failure. -/
theorem restartCount_frame (env : Env) (s : Agent) :
    (restart env s).1.restartCount = s.restartCount
    ∧ (handleProcessFailure env s).restartCount = s.restartCount + 1
    ∧ (start env s).1.restartCount = s.restartCount
    ∧ (stop s).1.restartCount = s.restartCount
    ∧ (performMemoryCleanup env s).restartCount = s.restartCount
    ∧ (performGitHubSync env s).restartCount = s.restartCount
    ∧ (cleanup s).1.restartCount = s.restartCount
    ∧ (onProcessExit s).restartCount = s.restartCount
    ∧ (getStatus env s).restartCount = s.restartCount
    ∧ (performHealthCheck env s).restartCount =
        (if !s.isRunning || s.process.isNone then s.restartCount + 1
         else s.restartCount) := by
  refine ⟨rfl, handleProcessFailure_restartCount env s, rfl, rfl, rfl, ?_, rfl, rfl, rfl,
    performHealthCheck_restartCount env s⟩
  rw [performGitHubSync_eq]

/-- C5: the claim says a successful external sync stores the fetched page
as a MemoryEntry in the supervisor memory store.  In the code the store
step goes through `this.memoryManager`, a property that is never assigned,
so on exactly the connected-and-successful path the body throws a
`TypeError`; the `catch` absorbs it, and the memory store, the running
flag and the timers are left unchanged on every path — the failure indeed
does not affect process health, but nothing is ever stored. -/
theorem githubSync_stores_nothing (env : Env) (s : Agent) :
    performGitHubSync env s = s
    ∧ (s.githubAPI = true → s.githubConnected = true → env.listReposSuccess = true →
        performGitHubSyncBody env s =
          Except.error (JsError.typeError "Cannot read properties of undefined")) := by
  refine ⟨performGitHubSync_eq env s, fun hapi hconn hsucc => ?_⟩
  unfold performGitHubSyncBody memoryManagerStore
  rw [hapi, hconn, hsucc]
  rfl

/-- C5 witness: the sync body throws on a connected agent with a
successful page fetch, and the state is unchanged. -/
theorem githubSync_stores_nothing_witness :
    performGitHubSync sampleEnv connectedAgent = connectedAgent
    ∧ performGitHubSyncBody sampleEnv connectedAgent =
        Except.error (JsError.typeError "Cannot read properties of undefined") :=
  ⟨(githubSync_stores_nothing sampleEnv connectedAgent).1,
    (githubSync_stores_nothing sampleEnv connectedAgent).2 rfl rfl rfl⟩

/-- C6: after eviction with a max age, no surviving entry has age strictly
greater than `maxAge`, every entry whose age was at most `maxAge` is still
present as the very same key-payload-timestamp pair, and the periodic
memory cleanup is exactly this eviction at the 24-hour bound. -/
theorem evict_sound_complete (now maxAge : Int) (store : List (String × MemEntry)) :
    (∀ kv ∈ evictOlderThan now maxAge store, now - kv.2.timestamp ≤ maxAge)
    ∧ (∀ kv ∈ store, now - kv.2.timestamp ≤ maxAge → kv ∈ evictOlderThan now maxAge store)
    ∧ (∀ env s, (performMemoryCleanup env s).memoryStore =
        evictOlderThan env.now maxAgeMs s.memoryStore) := by
  refine ⟨?_, ?_, fun env s => rfl⟩
  · intro kv hkv
    simpa using (List.mem_filter.mp hkv).2
  · intro kv hkv hle
    exact List.mem_filter.mpr ⟨hkv, by simpa using hle⟩

/-- C6 witness: on a concrete two-entry store at time 100 with bound 20,
the young entry survives eviction unchanged. -/
theorem evict_sound_complete_witness :
    (("keep", MemEntry.mk 90 "p") ∈
        evictOlderThan 100 20 [("keep", MemEntry.mk 90 "p"), ("old", MemEntry.mk 10 "q")])
    ∧ (100 : Int) - (MemEntry.mk 90 "p").timestamp ≤ 20 :=
  ⟨(evict_sound_complete 100 20
        [("keep", MemEntry.mk 90 "p"), ("old", MemEntry.mk 10 "q")]).2.1
      ("keep", MemEntry.mk 90 "p") (by decide) (by decide),
    by decide⟩

/-- C7: persisting the memory store and loading the snapshot into a fresh
store reproduces exactly the entry set present at persist time — the same
keys, each with the same payload and timestamp, nothing added or lost
(the stores are equal as key-entry sequences). -/
theorem persist_load_roundtrip (s t : Agent) (ht : t.memoryStore = [])
    (hs : (s.memoryStore.map Prod.fst).Nodup) :
    (loadMemoryInto t (saveMemory s)).memoryStore = s.memoryStore := by
  unfold loadMemoryInto saveMemory
  dsimp only
  rw [ht]
  rw [foldl_mapSet _ [] (by simpa using hs)]
  simp

/-- C7 witness: the round trip on a concrete two-entry store. -/
theorem persist_load_roundtrip_witness :
    (loadMemoryInto initialAgent (saveMemory storeAgentA)).memoryStore =
      storeAgentA.memoryStore :=
  persist_load_roundtrip storeAgentA initialAgent rfl (by decide)

/-- C8: `stop()` is idempotent: both of two consecutive calls — in
particular the second one, made when the supervisor is already stopped —
return success, no error escapes (the result is total), the final running
flag is false, and the second call does not change the state at all. -/
theorem stop_idempotent (s : Agent) :
    (stop s).2 = true
    ∧ (stop (stop s).1).2 = true
    ∧ (stop (stop s).1).1.isRunning = false
    ∧ (stop (stop s).1).1 = (stop s).1 :=
  ⟨rfl, rfl, rfl, rfl⟩

/-- C9: `stop()` always returns success, and in the state it returns all
three periodic tasks — health check, memory cleanup, external sync — are
already cancelled: the `stopped` event handler runs `stopMonitoring`
synchronously before `stop()` returns, so no task fires afterwards. -/
theorem stop_cancels_tasks (s : Agent) :
    (stop s).2 = true
    ∧ (stop s).1.healthCheckInterval = false
    ∧ (stop s).1.memoryCleanupInterval = false
    ∧ (stop s).1.githubSyncInterval = false :=
  ⟨rfl, rfl, rfl, rfl⟩

/-- C10: the restart counter is monotonically non-decreasing over the
supervisor's entire lifetime: every single operation (host calls, periodic
tasks, failure handling, cleanup, child-exit notification) keeps it from
decreasing, and hence no trace of operations ever resets it — the ceiling
is met by failures accumulated over the whole lifetime. -/
theorem restartCount_monotone :
    (∀ (env : Env) (op : HostOp) (s : Agent),
        s.restartCount ≤ (step env s op).restartCount)
    ∧ (∀ (s : Agent) (trace : List (HostOp × Env)),
        s.restartCount ≤ (run s trace).restartCount) :=
  ⟨fun env op s => step_restartCount_le env op s,
    fun s trace => run_restartCount_le s trace⟩

end CursorAgent
